import Mathlib

/-!
Verification of the PANDORA orchestration core against its natural-language
specification.  Each section shallowly embeds the relevant Python source
(`src/pandora/...`) as executable Lean definitions and proves or refutes the
spec claims C1..C10 about it.
-/

namespace Pandora

/-! ## Monochromator wire encoding (src/pandora/controller/monochromator.py)

`move_to_wavelength` computes `wavelength_angstroms = int(wavelength_nm * 10)`
(Python `int` truncates toward zero), `high_byte = wavelength_angstroms // 256`,
`low_byte = wavelength_angstroms % 256`.  `get_wavelength` decodes a byte pair
as `((high_byte << 8) | low_byte) / 10`.  Wavelengths are nonneg rationals; at
the counterexample below every intermediate Python float is exactly
representable in binary, so exact rational arithmetic coincides with the
float computation performed by the source. -/

/-- Python `int()` truncation toward zero, for rationals. -/
def pyTrunc (q : ℚ) : ℤ := if 0 ≤ q then ⌊q⌋ else ⌈q⌉

/-- `wavelength_angstroms = int(wavelength_nm * 10)` from `move_to_wavelength`
(as a natural number; the caller supplies a nonnegative wavelength). -/
def wireAngstroms (lam : ℚ) : ℕ := (pyTrunc (lam * 10)).toNat

/-- `high_byte = wavelength_angstroms // 256` -/
def highByte (lam : ℚ) : ℕ := wireAngstroms lam / 256

/-- `low_byte = wavelength_angstroms % 256` -/
def lowByte (lam : ℚ) : ℕ := wireAngstroms lam % 256

/-- `get_wavelength` decoding: `((high_byte << 8) | low_byte) / 10`. -/
def decodeWire (hi lo : ℕ) : ℚ := (((hi <<< 8) ||| lo : ℕ) : ℚ) / 10

/-- Recombining the byte split: `(a / 256) <<< 8 ||| a % 256 = a`. -/
lemma byteSplit_recombine (a : ℕ) : ((a / 256) <<< 8) ||| (a % 256) = a := by
  rw [Nat.shiftLeft_eq]
  have h : a % 256 < 2 ^ 8 := Nat.mod_lt _ (by norm_num)
  calc (a / 256) * 2 ^ 8 ||| a % 256
      = 2 ^ 8 * (a / 256) ||| a % 256 := by rw [Nat.mul_comm]
    _ = 2 ^ 8 * (a / 256) + a % 256 := (Nat.mul_add_lt_is_or h _).symm
    _ = a := by omega

/-! ### Claim C5 -/

/-- Claim C5, counterexample: at wavelength 500.75 nm (= 2003/4, exactly
representable in binary floating point, so Python computes the same values),
encoding to the wire and decoding back yields 500.7, not
`round(500.75 * 10) / 10 = 500.8`.  The source truncates (`int(...)`) rather
than rounds. -/
theorem C5_counterexample :
    decodeWire (highByte (2003/4)) (lowByte (2003/4)) ≠
      ((round ((2003/4 : ℚ) * 10) : ℤ) : ℚ) / 10 := by
  have hhalf : ⌊(1/2 : ℚ)⌋ = 0 := by
    rw [Int.floor_eq_zero_iff]; constructor <;> norm_num
  have h : (2003/4 : ℚ) * 10 = 1/2 + (5007 : ℤ) := by norm_num
  have hfl : pyTrunc ((2003/4 : ℚ) * 10) = 5007 := by
    unfold pyTrunc
    rw [if_pos (by norm_num), h, Int.floor_add_int, hhalf]
    norm_num
  have hrd : round ((2003/4 : ℚ) * 10) = 5008 := by
    rw [h, round_add_int, round_eq]
    norm_num
  unfold decodeWire highByte lowByte wireAngstroms
  rw [byteSplit_recombine, hfl, hrd]
  rw [show Int.toNat 5007 = 5007 from rfl]
  norm_num

/-- Claim C5, amended: for every nonnegative wavelength λ, encoding λ to the
monochromator wire byte pair and decoding back yields `⌊λ·10⌋ / 10`
(truncation toward zero of λ·10, which for λ ≥ 0 is the floor), not
`round(λ·10)/10`. -/
theorem C5_roundtrip_truncates (lam : ℚ) (h0 : 0 ≤ lam) :
    decodeWire (highByte lam) (lowByte lam) = ((⌊lam * 10⌋ : ℤ) : ℚ) / 10 := by
  unfold decodeWire highByte lowByte
  rw [byteSplit_recombine]
  unfold wireAngstroms pyTrunc
  have h10 : 0 ≤ lam * 10 := by positivity
  rw [if_pos h10]
  have hfl : 0 ≤ ⌊lam * 10⌋ := Int.floor_nonneg.mpr h10
  congr 1
  exact_mod_cast congrArg (fun z : ℤ => (z : ℚ)) (Int.toNat_of_nonneg hfl)

/-- Witness for C5_roundtrip_truncates at λ = 500 nm. -/
theorem C5_roundtrip_truncates_witness :
    0 ≤ (500 : ℚ) ∧
      decodeWire (highByte 500) (lowByte 500) = ((⌊(500 : ℚ) * 10⌋ : ℤ) : ℚ) / 10 :=
  ⟨by norm_num, C5_roundtrip_truncates 500 (by norm_num)⟩

/-! ## Run database exposure ids (src/pandora/database/db.py)

`set_next_expid` stores `0` when the run table is empty and otherwise the
maximum of the `expid` column.  `write_exposure` begins with
`self.current_expid += 1` and assigns the incremented value as the new row's
`expid`, appending the row to the in-memory frame.  We model only the `expid`
column of the frame. -/

structure RunDb where
  expids : List ℕ
  currentExpid : ℕ
deriving Repr, DecidableEq

/-- `set_next_expid`: 0 for an empty table, else the max of the expid column. -/
def setNextExpid (rows : List ℕ) : ℕ := if rows.isEmpty then 0 else rows.foldl max 0

/-- `_load_or_init_run_db` followed by `set_next_expid` on a run file holding
the given expid column. -/
def loadRunDb (rows : List ℕ) : RunDb := ⟨rows, setNextExpid rows⟩

/-- A fresh run: run file absent or empty. -/
def freshRunDb : RunDb := loadRunDb []

/-- `write_exposure`: pre-increments `current_expid`, appends a row carrying
the incremented value, and returns the assigned expid. -/
def writeExposure (db : RunDb) : RunDb × ℕ :=
  let expid := db.currentExpid + 1
  (⟨db.expids ++ [expid], expid⟩, expid)

/-- `n` successive `write_exposure` calls. -/
def writeExposureN : ℕ → RunDb → RunDb
  | 0, db => db
  | n + 1, db => writeExposureN n (writeExposure db).1

lemma writeExposureN_spec (n : ℕ) (db : RunDb) :
    (writeExposureN n db).expids
        = db.expids ++ (List.range n).map (db.currentExpid + 1 + ·)
      ∧ (writeExposureN n db).currentExpid = db.currentExpid + n := by
  induction n generalizing db with
  | zero => simp [writeExposureN]
  | succ n ih =>
    have h := ih (writeExposure db).1
    simp only [writeExposureN, writeExposure] at h ⊢
    rw [List.range_succ_eq_map]
    refine ⟨?_, by rw [h.2]; omega⟩
    rw [h.1]
    simp [List.map_map, Function.comp]
    intro a _
    omega

/-! ### Claim C2 -/

/-- Claim C2, counterexample: the first exposure written to a fresh (absent
or empty) run file receives expid 1, not 0: `write_exposure` increments
`current_expid` (initialized to 0 by `set_next_expid`) before assigning. -/
theorem C2_counterexample :
    (writeExposure freshRunDb).2 = 1 ∧ (writeExposure freshRunDb).2 ≠ 0 := by decide

/-- Claim C2, amended: for every run the expids committed by successive
`write_exposure` calls are strictly monotonic and dense starting at 1: the
first exposure written to a fresh run file receives expid 1, each subsequent
exposure receives the previous expid plus one (so after n writes the column
is exactly `[1, …, n]`), and on a run resumed from a non-empty file the next
exposure receives the maximum existing expid plus one. -/
theorem C2_expids_dense_from_one :
    (∀ n, (writeExposureN n freshRunDb).expids = (List.range n).map (· + 1))
    ∧ (∀ rows, rows ≠ [] →
        (writeExposure (loadRunDb rows)).2 = rows.foldl max 0 + 1)
    ∧ (writeExposure freshRunDb).2 = 1 := by
  refine ⟨fun n => ?_, fun rows h => ?_, rfl⟩
  · have h := (writeExposureN_spec n freshRunDb).1
    simpa [freshRunDb, loadRunDb, setNextExpid, Nat.add_comm] using h
  · simp [writeExposure, loadRunDb, setNextExpid, List.isEmpty_iff, h]

/-- Witness for C2_expids_dense_from_one, at three writes on a fresh run and
one write on a run resumed from a file with expids 3 and 5. -/
theorem C2_expids_dense_from_one_witness :
    (writeExposureN 3 freshRunDb).expids = [1, 2, 3]
    ∧ (writeExposure (loadRunDb [3, 5])).2 = 6 :=
  ⟨by simpa using C2_expids_dense_from_one.1 3,
   by simpa using C2_expids_dense_from_one.2.1 [3, 5] (by decide)⟩

/-! ## Run-ID allocation (src/pandora/database/db.py, `generate_new_run_id`)

The cache file `.run_cache.csv` is modelled as the list of its `run_id`
column values (an absent cache behaves like the empty list: the source
creates a header-only file before reading, which yields no rows).
`int(r[-3:])` is modelled by `(r.takeRight 3).toNat?`, erroring when the
parse fails; `max(existing_suffixes)` of an empty Python list raises, which
the model surfaces as an error as well.  `f"{suffix:03d}"` is `pad3`. -/

/-- `f"{n:03d}"` for `0 ≤ n ≤ 999`: zero-padded three-digit decimal. -/
def pad3 (n : ℕ) : String :=
  if n < 10 then "00" ++ toString n
  else if n < 100 then "0" ++ toString n
  else toString n

/-- Python `r.startswith(p)`, as a character-prefix test.  (Lean's own
`String.startsWith` is byte-level and defined by well-founded recursion;
the character-level test is equivalent on well-formed strings and lets
concrete witnesses evaluate inside the kernel.) -/
def pyStartsWith (r p : String) : Bool := p.data.isPrefixOf r.data

/-- Python `len(r)` (characters). -/
def pyLen (r : String) : ℕ := r.data.length

/-- Python `r[-3:]` (the whole string when it is shorter than 3). -/
def lastThree (r : String) : List Char := r.data.drop (r.data.length - 3)

/-- Python `int(digits)` on a digit string, as an accumulator fold. -/
def digitsToNat (l : List Char) : ℕ := l.foldl (fun a c => 10 * a + (c.toNat - 48)) 0

/-- Python `int(s)`: fails unless the string is a nonempty digit string
(signs and surrounding whitespace, which `int` would also accept, never occur
in the run-id cache). -/
def parseNatDigits (l : List Char) : Option ℕ :=
  if l.isEmpty || !(l.all Char.isDigit) then none else some (digitsToNat l)

/-- `int(r[-3:])` from `generate_new_run_id`. -/
def pyIntLast3 (r : String) : Option ℕ := parseNatDigits (lastThree r)

/-- The cache rows whose run_id starts with the given date string. -/
def runIdsForDate (dateStr : String) (cache : List String) : List String :=
  cache.filter (fun r => pyStartsWith r dateStr)

/-- The suffix computation of `generate_new_run_id`: 1 when no cache row
matches today's date, otherwise `max(existing_suffixes) + 1` where the
suffixes come from the 11-character matching rows; `int` failure and `max`
of an empty sequence raise. -/
def newSuffixE (dateStr : String) (cache : List String) : Except String ℕ :=
  let todays := runIdsForDate dateStr cache
  if todays.isEmpty then .ok 1
  else
    match (todays.filter (fun r => pyLen r = 11)).mapM pyIntLast3 with
    | none => .error "ValueError: invalid literal for int"
    | some suffixes =>
      match suffixes.max? with
      | none => .error "ValueError: max of an empty sequence"
      | some m => .ok (m + 1)

/-- `generate_new_run_id(date_str, cache_file)`: returns the new run id and
the cache with the new id appended, or the raised error. -/
def generateNewRunId (dateStr : String) (cache : List String) :
    Except String (String × List String) :=
  match newSuffixE dateStr cache with
  | .error e => .error e
  | .ok newSuffix =>
    if 999 < newSuffix then .error ("Exceeded 999 runs in one day " ++ dateStr)
    else
      let newRunId := dateStr ++ pad3 newSuffix
      .ok (newRunId, cache ++ [newRunId])

/-- `PandoraDatabase.set_run_id` in writing mode: a caller-supplied run id is
trusted verbatim (cache untouched); otherwise a fresh one is generated. -/
def setRunIdWriting (runId? : Option String) (dateStr : String)
    (cache : List String) : Except String (String × List String) :=
  match runId? with
  | some rid => .ok (rid, cache)
  | none => generateNewRunId dateStr cache

lemma mapM_pyIntLast3_eq_map (l : List String)
    (h : ∀ r ∈ l, (pyIntLast3 r).isSome) :
    l.mapM pyIntLast3 = some (l.map (fun r => (pyIntLast3 r).getD 0)) := by
  induction l with
  | nil => rfl
  | cons a l ih =>
    have ha := h a (List.mem_cons_self a l)
    obtain ⟨n, hn⟩ := Option.isSome_iff_exists.mp ha
    have hl := ih (fun r hr => h r (List.mem_cons_of_mem a hr))
    rw [List.mapM_cons, hn, hl]
    simp [hn]

/-! ### Claim C7 -/

/-- Claim C7: run-ID allocation in writing mode collects the cache rows
beginning with the given date; on an empty match set it allocates suffix 001,
otherwise the highest existing 3-digit suffix plus one; the new
`YYYYMMDDNNN` id is appended to the cache; allocation fails when the suffix
would exceed 999.  (Hypothesis: every cache row for the date is a well-formed
11-character run id with a numeric suffix, which is what the allocator itself
writes.) -/
theorem C7_run_id_allocation (dateStr : String) (cache : List String)
    (hwf : ∀ r ∈ cache, pyStartsWith r dateStr = true →
      pyLen r = 11 ∧ (pyIntLast3 r).isSome) :
    (runIdsForDate dateStr cache = [] →
      generateNewRunId dateStr cache
        = .ok (dateStr ++ "001", cache ++ [dateStr ++ "001"]))
    ∧ (∀ m,
        ((runIdsForDate dateStr cache).map
            (fun r => (pyIntLast3 r).getD 0)).max? = some m →
        (m + 1 ≤ 999 → generateNewRunId dateStr cache
            = .ok (dateStr ++ pad3 (m + 1), cache ++ [dateStr ++ pad3 (m + 1)]))
        ∧ (999 < m + 1 → ∃ e, generateNewRunId dateStr cache = .error e)) := by
  have hmem : ∀ r ∈ runIdsForDate dateStr cache,
      pyLen r = 11 ∧ (pyIntLast3 r).isSome := by
    intro r hr
    have := List.of_mem_filter hr
    exact hwf r (List.mem_of_mem_filter hr) this
  have hfilter : (runIdsForDate dateStr cache).filter (fun r => pyLen r = 11)
      = runIdsForDate dateStr cache := by
    apply List.filter_eq_self.mpr
    intro r hr
    simp [(hmem r hr).1]
  constructor
  · intro hempty
    have hsuf : newSuffixE dateStr cache = .ok 1 := by
      simp [newSuffixE, hempty]
    simp only [generateNewRunId, hsuf]
    norm_num
    congr 1
  · intro m hm
    have hne : runIdsForDate dateStr cache ≠ [] := by
      intro hnil
      rw [hnil] at hm
      simp [List.max?] at hm
    have hneB : (runIdsForDate dateStr cache).isEmpty = false := by
      cases hcase : runIdsForDate dateStr cache with
      | nil => exact absurd hcase hne
      | cons a l => rfl
    have hmapM := mapM_pyIntLast3_eq_map (runIdsForDate dateStr cache)
      (fun r hr => (hmem r hr).2)
    have hsuf : newSuffixE dateStr cache = .ok (m + 1) := by
      simp only [newSuffixE, hneB, Bool.false_eq_true, if_false, hfilter, hmapM, hm]
    constructor
    · intro hle
      simp only [generateNewRunId, hsuf]
      rw [if_neg (by omega)]
    · intro hgt
      simp only [generateNewRunId, hsuf]
      rw [if_pos hgt]
      exact ⟨_, rfl⟩

/-- Witness for C7_run_id_allocation: starting from an empty cache on date
20251120, two successive writing-mode allocations yield 20251120001 then
20251120002, and the cache then contains both. -/
theorem C7_run_id_allocation_witness :
    generateNewRunId "20251120" [] = .ok ("20251120001", ["20251120001"])
    ∧ generateNewRunId "20251120" ["20251120001"]
        = .ok ("20251120002", ["20251120001", "20251120002"]) := by
  constructor
  · have h := (C7_run_id_allocation "20251120" [] (by intro r hr; cases hr)).1
      (by decide)
    simpa using h
  · have h := ((C7_run_id_allocation "20251120" ["20251120001"]
      (by decide)).2 1 (by decide)).1 (by decide)
    simpa using h

/-! ## Flip mounts (src/pandora/states/flipmount_state.py)

A flip mount owns a LabJack digital line.  The line is modelled by the value
a read would return: `some v` (the integer level) or `none` (a read that
raises, which `get_state` turns into FAULT).  Line drives are collected as a
command trace.  The rate limiter only sleeps and is omitted: it has no
effect on states or traces. -/

inductive FMState
  | uninit | idle | on | off | fault
deriving Repr, DecidableEq, BEq

inductive LineCmd | sendLow | sendHigh
deriving Repr, DecidableEq

/-- The `valid_transitions` table of `FlipMountState.set_state`. -/
def validTransition (s t : FMState) : Bool :=
  match s with
  | .uninit => t == .idle
  | .idle => t == .on || t == .off || t == .fault || t == .uninit || t == .idle
  | .on => t == .off || t == .fault || t == .on || t == .uninit
  | .off => t == .on || t == .fault || t == .off || t == .uninit
  | .fault => t == .idle

/-- `set_state`: an invalid transition is logged and ignored. -/
def setStateFM (s t : FMState) : FMState := if validTransition s t then t else s

/-- `get_state`: outside UNINITIALIZED, read the line; a 0 value maps to ON,
any other value to OFF, a raising read to FAULT; the update passes through
`set_state`'s validity filter. -/
def getStateFM (read : Option ℤ) (s : FMState) : FMState :=
  match s with
  | .uninit => .uninit
  | s =>
    match read with
    | none => setStateFM s .fault
    | some v => setStateFM s (if v = 0 then .on else .off)

/-- The state dispatch of `activate` for a non-IDLE state: from OFF drive the
line low and record ON; ON and FAULT do nothing; UNINITIALIZED matches no
branch and falls through. -/
def activateStep : FMState → FMState × List LineCmd
  | .off => (setStateFM .off .on, [.sendLow])
  | .on => (.on, [])
  | .fault => (.fault, [])
  | s => (s, [])

/-- `activate`: from IDLE the source first re-reads the state and then
recurses; `get_state` never returns IDLE, so one unfolding is exact. -/
def activateFM (read : Option ℤ) (s : FMState) : FMState × List LineCmd :=
  match s with
  | .idle => activateStep (getStateFM read .idle)
  | s => activateStep s

/-- The state dispatch of `deactivate` for a non-IDLE state. -/
def deactivateStep : FMState → FMState × List LineCmd
  | .on => (setStateFM .on .off, [.sendHigh])
  | .off => (.off, [])
  | .fault => (.fault, [])
  | s => (s, [])

/-- `deactivate`, with the same IDLE unfolding as `activate`. -/
def deactivateFM (read : Option ℤ) (s : FMState) : FMState × List LineCmd :=
  match s with
  | .idle => deactivateStep (getStateFM read .idle)
  | s => deactivateStep s

/-- Flip-mount construction (`__init__` followed by `initialize`): the state
starts UNINITIALIZED, `set_state(State.IDLE)`, one `get_state` read, and a
rate-limiter timestamp update.  Construction issues no line drives and has no
failure path once the port and LabJack arguments are non-None. -/
def flipMountInit (read : Option ℤ) : FMState × List LineCmd :=
  let s1 := setStateFM FMState.uninit .idle
  let s2 := getStateFM read s1
  (s2, [])

/-- `FlipMountState.close`: `deactivate()`, `set_state(UNINITIALIZED)`, then
`get_state` (which performs no read in UNINITIALIZED). -/
def flipMountClose (read : Option ℤ) (s : FMState) : FMState × List LineCmd :=
  let p := deactivateFM read s
  let s2 := setStateFM p.1 .uninit
  (getStateFM read s2, p.2)

/-! ### Claim C4 -/

/-- Claim C4, counterexample: constructing a flip mount on an unpowered line
that always reads high (1) succeeds with cached state OFF and drives the line
with no command at all — there is no toggle-and-read self-test and no
NotPoweredOn failure; even a line whose reads raise yields a successful
construction (state FAULT). -/
theorem C4_counterexample :
    flipMountInit (some 1) = (FMState.off, [])
    ∧ flipMountInit none = (FMState.fault, []) := by decide

/-- Claim C4, amended: flip-mount construction performs no self-test: it sets
the cached state to IDLE, performs a single read of the digital line (ON for
a 0 reading, OFF otherwise, FAULT when the read raises), drives the line with
no command, and always succeeds — it cannot fail with NotPoweredOn. -/
theorem C4_construction_no_self_test (read : Option ℤ) :
    flipMountInit read
      = ((match read with
          | none => FMState.fault
          | some v => if v = 0 then FMState.on else FMState.off), []) := by
  cases read with
  | none => rfl
  | some v =>
    rcases eq_or_ne v 0 with h | h <;>
      simp [flipMountInit, getStateFM, setStateFM, validTransition, h] <;>
      decide

/-! ## Order-blocking filter coupling (src/pandora/pandora_controller.py,
src/pandora/controller/monochromator.py)

`PandoraBox.set_wavelength` begins with
`if wavelength > self.monochromator.wav_second_order_filter:` and would then
toggle the order-blocking flip mount and command the monochromator.  But
`MonochromatorController.__init__` assigns only `port`, `baudrate`, `ser`,
`logger`, `wavelength` and `timeout` — `wav_second_order_filter` is assigned
nowhere in the repository (the constructor accepts no such keyword, so a
configuration entry of that name would make `MonochromatorController(**cfg)`
raise TypeError), and the class has no `__getattr__`.  Every
`set_wavelength` call therefore raises AttributeError at the comparison,
before any flip-mount toggle or monochromator command.

Attribute reads are modelled with `Option`: a field holds `some v` when some
code assigned the attribute and `none` when no assignment exists, in which
case reading it raises. -/

/-- The attribute set `MonochromatorController.__init__` leaves on the
object (monochromator.py lines 22-36).  `wavSecondOrderFilter` is the
attribute `set_wavelength` reads; no assignment to it exists in the
repository. -/
structure MonochromatorAttrs where
  port : String
  baudrate : ℕ
  serOpen : Bool
  wavelength : Option ℚ
  timeout : ℚ
  wavSecondOrderFilter : Option ℚ
deriving Repr, DecidableEq

/-- `MonochromatorController.__init__(usb_port, baudrate, type)`:
`ser = None`, `wavelength = None`, `timeout = 1`; the
`wav_second_order_filter` attribute is never created. -/
def monochromatorInit (usbPort : String) (baudrate : ℕ) : MonochromatorAttrs :=
  { port := usbPort
    baudrate := baudrate
    serOpen := false
    wavelength := none
    timeout := 1
    wavSecondOrderFilter := none }

/-- The wavelength-setting slice of `PandoraBox`: the monochromator object,
the order-block flip mount's state, and the cached wavelength. -/
structure PBoxWavelengthCtx where
  mono : MonochromatorAttrs
  flipOrderBlockFilter : FMState
  wavelength : ℚ
deriving Repr, DecidableEq

/-- `PandoraBox.enable_2nd_order_filter(state)`. -/
def enable2ndOrderFilter (read : Option ℤ) (state : Bool) (fm : FMState) :
    FMState × List LineCmd :=
  if state then activateFM read fm else deactivateFM read fm

/-- `PandoraBox.set_wavelength(wavelength)`: reading
`self.monochromator.wav_second_order_filter` raises AttributeError when the
attribute was never assigned; otherwise the order-block filter is toggled by
the crossover comparison, the monochromator moved, and the wavelength
cached.  Returns the flip-mount line-drive trace together with the new
context or the raised error. -/
def setWavelengthPB (read : Option ℤ) (ctx : PBoxWavelengthCtx) (lam : ℚ) :
    List LineCmd × Except String PBoxWavelengthCtx :=
  match ctx.mono.wavSecondOrderFilter with
  | none =>
    ([], .error "AttributeError: MonochromatorController object has no attribute wav_second_order_filter")
  | some crossover =>
    let p := if lam > crossover
      then enable2ndOrderFilter read true ctx.flipOrderBlockFilter
      else enable2ndOrderFilter read false ctx.flipOrderBlockFilter
    (p.2, .ok { ctx with flipOrderBlockFilter := p.1, wavelength := lam })

/-! ### Claim C3 -/

/-- Claim C3: for every wavelength λ, every flip-mount state, every line
reading and every cached wavelength, `set_wavelength(λ)` on a `PandoraBox`
whose monochromator was built by `MonochromatorController.__init__` raises
AttributeError at the crossover comparison — no call ever succeeds, the
order-block flip mount is never toggled (empty drive trace) and no
monochromator command is issued; the claimed ON-iff-above-crossover
postcondition is unreachable. -/
theorem C3_set_wavelength_always_raises (lam w : ℚ) (fm : FMState)
    (read : Option ℤ) (port : String) (baud : ℕ) :
    setWavelengthPB read ⟨monochromatorInit port baud, fm, w⟩ lam
      = ([], .error "AttributeError: MonochromatorController object has no attribute wav_second_order_filter") :=
  rfl

/-! ## Calibration store (src/pandora/database/calib_db.py)

The log CSV is a list of entries.  `add_calibration` derives the filename
from the wall clock with one-second resolution (`%Y%m%d_%H%M%S.csv`) and the
`timestamp` column from the same instant's `isoformat()` (microsecond
resolution); the model takes both as inputs of the call.  `set_default`
re-reads the tag's rows, resolves an omitted filename to the most recent
row, raises when the filename is absent, and otherwise clears `is_default`
on every row of the tag and then sets it on every row of the tag carrying
the chosen filename. -/

structure CalibEntry where
  tag : String
  filename : String
  timestamp : String
  isDefault : Bool
deriving Repr, DecidableEq

/-- `add_calibration(tag, data)`: appends a log row; `is_default` is true iff
the log had no row for the tag yet. -/
def addCalibration (log : List CalibEntry) (tag fname iso : String) :
    List CalibEntry :=
  let isDef := (log.filter (fun e => e.tag = tag)).isEmpty
  log ++ [⟨tag, fname, iso, isDef⟩]

/-- Latest of two entries by the `timestamp` column (ties keep the first,
matching a stable descending sort; pandas leaves the tie order unspecified). -/
def moreRecent (a b : CalibEntry) : CalibEntry :=
  if a.timestamp < b.timestamp then b else a

/-- `sort_values("timestamp", ascending=False).iloc[0]["filename"]`. -/
def mostRecentFilename : List CalibEntry → String
  | [] => ""
  | e :: l => (l.foldl moreRecent e).filename

/-- `set_default(tag, filename)`: no-op when the tag has no rows; resolves a
missing filename to the most recent row; raises `ValueError` when the
filename is not among the tag's rows; otherwise clears then sets
`is_default` as two full passes over the log. -/
def setDefault (log : List CalibEntry) (tag : String)
    (filename? : Option String) : Except String (List CalibEntry) :=
  let tagEntries := log.filter (fun e => e.tag = tag)
  if tagEntries.isEmpty then .ok log
  else
    let fname := match filename? with
      | some f => f
      | none => mostRecentFilename tagEntries
    if !(tagEntries.any (fun e => e.filename = fname)) then
      .error "ValueError: filename not found for tag"
    else
      let log1 := log.map (fun e =>
        if e.tag = tag then { e with isDefault := false } else e)
      let log2 := log1.map (fun e =>
        if e.tag = tag ∧ e.filename = fname then { e with isDefault := true } else e)
      .ok log2

/-- The rows of a tag carrying `is_default = true`. -/
def defaultsFor (log : List CalibEntry) (t : String) : List CalibEntry :=
  log.filter (fun e => e.tag = t ∧ e.isDefault)

/-- The store invariant of the claim: at most one default per tag. -/
def atMostOneDefault (log : List CalibEntry) : Prop :=
  ∀ t, (defaultsFor log t).length ≤ 1

/-- No two rows of one tag share a filename. -/
def distinctFilenames (log : List CalibEntry) : Prop :=
  log.Pairwise (fun a b => a.tag = b.tag → a.filename ≠ b.filename)

lemma countP_le_one_of_pairwise {α : Type} (l : List α) (p : α → Bool)
    (R : α → α → Prop) (hR : List.Pairwise R l)
    (h : ∀ a b, R a b → p a = true → p b = true → False) :
    l.countP p ≤ 1 := by
  induction l with
  | nil => simp
  | cons a l ih =>
    obtain ⟨ha, hl⟩ := List.pairwise_cons.mp hR
    by_cases hpa : p a = true
    · have hz : l.countP p = 0 :=
        List.countP_eq_zero.mpr (fun b hb hpb => h a b (ha b hb) hpa hpb)
      rw [List.countP_cons_of_pos _ _ hpa, hz]
    · rw [List.countP_cons_of_neg _ _ (by simpa using hpa)]
      exact ih hl

/-- The net effect of the clear-then-set passes of `set_default`. -/
def setDefaultRow (tag fname : String) (e : CalibEntry) : CalibEntry :=
  if e.tag = tag then { e with isDefault := decide (e.filename = fname) } else e

lemma setDefault_some_ok (log : List CalibEntry) (tag f : String)
    (hne : (log.filter (fun e => e.tag = tag)).isEmpty = false)
    (hf : (log.filter (fun e => e.tag = tag)).any (fun e => e.filename = f) = true) :
    setDefault log tag (some f) = .ok (log.map (setDefaultRow tag f)) := by
  simp only [setDefault, hne, hf, Bool.not_true, Bool.false_eq_true, if_false,
    List.map_map]
  congr 1
  apply List.map_congr_left
  intro e _
  by_cases ht : e.tag = tag <;> by_cases hfn : e.filename = f <;>
    simp [setDefaultRow, Function.comp, ht, hfn]

/-! ### Claim C8 -/

/-- Claim C8, counterexample: calibration filenames have one-second
resolution, so two `add_calibration` calls for the same tag within one
wall-clock second create two log rows sharing a filename; `set_default` for
that filename then marks both rows `is_default = true`, violating the
at-most-one-default-per-tag invariant on a store reachable through the
public operations. -/
theorem C8_counterexample :
    setDefault
        (addCalibration
          (addCalibration [] "throughput" "20250101_120000.csv"
            "2025-01-01T12:00:00.100000")
          "throughput" "20250101_120000.csv" "2025-01-01T12:00:00.900000")
        "throughput" (some "20250101_120000.csv")
      = .ok [⟨"throughput", "20250101_120000.csv", "2025-01-01T12:00:00.100000", true⟩,
             ⟨"throughput", "20250101_120000.csv", "2025-01-01T12:00:00.900000", true⟩]
    ∧ (defaultsFor
        [⟨"throughput", "20250101_120000.csv", "2025-01-01T12:00:00.100000", true⟩,
         ⟨"throughput", "20250101_120000.csv", "2025-01-01T12:00:00.900000", true⟩]
        "throughput").length = 2 := by
  constructor
  · rfl
  · decide

/-- Claim C8, amended: provided no two rows of one tag share a filename
(filenames are second-resolution timestamps, so same-tag artifacts saved in
the same second violate this), at most one log row per tag has
`is_default = true` at every point: `add_calibration` marks the first
artifact of a tag (and only the first) as default and preserves the
invariant, and a successful `set_default(tag, filename)` rewrites the log so
that within the tag exactly the rows carrying that filename (a single row,
under the proviso) are default, preserving the invariant; an omitted
filename resolves to the most recent row's filename. -/
theorem C8_at_most_one_default :
    (∀ log tag fname iso, atMostOneDefault log →
      atMostOneDefault (addCalibration log tag fname iso))
    ∧ (∀ log tag fname iso,
        (addCalibration log tag fname iso).getLast (by simp [addCalibration])
          = ⟨tag, fname, iso, (log.filter (fun e => e.tag = tag)).isEmpty⟩)
    ∧ (∀ log tag f, distinctFilenames log → atMostOneDefault log →
        ∀ l', setDefault log tag (some f) = .ok l' → atMostOneDefault l')
    ∧ (∀ log tag, setDefault log tag none
        = setDefault log tag (some (mostRecentFilename
            (log.filter (fun e => e.tag = tag))))) := by
  refine ⟨?_, ?_, ?_, ?_⟩
  · -- add_calibration preserves the invariant
    intro log tag fname iso hinv t
    have hlen := hinv t
    unfold defaultsFor at hlen ⊢
    unfold addCalibration
    rw [List.filter_append]
    by_cases ht : tag = t
    · subst ht
      by_cases hemp : (log.filter (fun e => e.tag = tag)).isEmpty = true
      · have hz : log.filter (fun e => e.tag = tag ∧ e.isDefault) = [] := by
          rw [List.filter_eq_nil_iff]
          intro e he
          have : ¬ (e.tag = tag) := by
            have h0 := List.isEmpty_iff.mp hemp
            intro hc
            have : e ∈ log.filter (fun e => e.tag = tag) :=
              List.mem_filter.mpr ⟨he, by simpa using hc⟩
            simp [h0] at this
          simp [this]
        rw [hz]
        simp [hemp]
      · have hb : (log.filter (fun e => e.tag = tag)).isEmpty = false :=
          Bool.not_eq_true _ ▸ (by simpa using hemp)
        simp only [List.length_append]
        have : ([(⟨tag, fname, iso,
            (log.filter (fun e => e.tag = tag)).isEmpty⟩ : CalibEntry)].filter
              (fun e => e.tag = tag ∧ e.isDefault)).length = 0 := by
          simp [hb]
        omega
    · have : ([(⟨tag, fname, iso,
          (log.filter (fun e => e.tag = tag)).isEmpty⟩ : CalibEntry)].filter
            (fun e => e.tag = t ∧ e.isDefault)).length = 0 := by
        simp [ht]
      simp only [List.length_append]
      omega
  · -- the appended row: default exactly for a fresh tag
    intro log tag fname iso
    simp [addCalibration]
  · -- set_default(tag, some f) preserves the invariant given distinct filenames
    intro log tag f hd hinv l' hok
    by_cases hemp : (log.filter (fun e => e.tag = tag)).isEmpty = true
    · simp only [setDefault, hemp, if_true] at hok
      cases hok
      exact hinv
    · have hne : (log.filter (fun e => e.tag = tag)).isEmpty = false := by
        simpa using hemp
      by_cases hf : (log.filter (fun e => e.tag = tag)).any
          (fun e => e.filename = f) = true
      · rw [setDefault_some_ok log tag f hne hf] at hok
        cases hok
        intro t
        unfold defaultsFor
        rw [← List.countP_eq_length_filter, List.countP_map]
        by_cases ht : t = tag
        · subst ht
          have hcong : ∀ e ∈ log,
              ((fun e => decide (e.tag = t ∧ e.isDefault = true)) ∘ setDefaultRow t f) e
                = decide (e.tag = t ∧ e.filename = f) := by
            intro e _
            by_cases h1 : e.tag = t <;> by_cases h2 : e.filename = f <;>
              simp [setDefaultRow, h1, h2]
          calc (log.countP (((fun e => decide (e.tag = t ∧ e.isDefault = true)) ∘
                  setDefaultRow t f)))
              = log.countP (fun e => decide (e.tag = t ∧ e.filename = f)) :=
                List.countP_congr (fun e he => by rw [hcong e he])
            _ ≤ 1 := by
                apply countP_le_one_of_pairwise _ _ _ hd
                intro a b hab hpa hpb
                simp only [decide_eq_true_eq] at hpa hpb
                exact hab (hpa.1.trans hpb.1.symm) (hpa.2.trans hpb.2.symm)
        · have hle : log.countP (((fun e => decide (e.tag = t ∧ e.isDefault = true)) ∘
              setDefaultRow tag f)) ≤ log.countP (fun e => decide (e.tag = t ∧ e.isDefault = true)) := by
            apply List.countP_mono_left
            intro e _ he
            by_cases h1 : e.tag = tag
            · exfalso
              simp only [Function.comp, setDefaultRow, h1, if_true,
                decide_eq_true_eq] at he
              exact ht he.1.symm
            · simpa [Function.comp, setDefaultRow, h1] using he
          have := hinv t
          unfold defaultsFor at this
          rw [← List.countP_eq_length_filter] at this
          exact le_trans hle this
      · have hfB : (log.filter (fun e => e.tag = tag)).any
            (fun e => e.filename = f) = false := by simpa using hf
        simp [setDefault, hne, hfB] at hok
  · -- an omitted filename resolves to the most recent row
    intro log tag
    rfl

/-- Witness for C8_at_most_one_default: adding a first artifact to an empty
store preserves the at-most-one-default invariant. -/
theorem C8_at_most_one_default_witness :
    atMostOneDefault
      (addCalibration [] "throughput" "20250101_120000.csv" "2025-01-01T12:00:00") :=
  C8_at_most_one_default.1 [] "throughput" "20250101_120000.csv"
    "2025-01-01T12:00:00" (fun t => by simp [defaultsFor])

/-! ## Telescope mount (src/pandora/controller/ioptron.py)

`goto_altaz` runs three safety checks — `is_parked()` (a status query),
`get_alt_limit()` (a limit query) against the requested altitude, and the
configured `[az_lower, az_upper]` interval against the requested azimuth —
before formatting the targets and sending any `:Sa`/`:Sz`/`:MSS` command.
The mount is modelled by its status/limit registers plus Boolean
acknowledgments for the set/slew commands; queries are reads and are not
recorded in the command trace, which collects only the state-affecting
commands sent on the wire. -/

structure MountState where
  parked : Bool
  altLimit : ℤ
  azLower : ℚ
  azUpper : ℚ
  alt : ℚ
  az : ℚ
  tracking : Bool
deriving Repr, DecidableEq

/-- Acknowledgment bits the mount returns to `:Sa`, `:Sz` and `:MSS`. -/
structure MountAcks where
  ackSa : Bool
  ackSz : Bool
  ackMSS : Bool
deriving Repr, DecidableEq

inductive MountCmd
  | setAltTarget (alt : ℚ)
  | setAzTarget (az : ℚ)
  | slew
  | trackOn
  | trackOff
deriving Repr, DecidableEq

inductive MountErr
  | parkedErr
  | altBelowLimit
  | azOutsideRange
  | altFormatRange
  | cmdRefused
deriving Repr, DecidableEq

/-- Python `az_deg % 360.0` (always in `[0, 360)`). -/
def pyMod360 (az : ℚ) : ℚ := az - 360 * ⌊az / 360⌋

/-- `goto_altaz(alt_deg, az_deg, track_after)`: safety checks, then
`:Sa`, `:Sz`, `:MSS` (`:ST1` right after `:MSS` when tracking is requested),
slew-completion polling, and `:ST0` when tracking is not requested.  Returns
the trace of state-affecting commands and either the new mount state or the
raised error. -/
def gotoAltAz (m : MountState) (acks : MountAcks) (alt az : ℚ)
    (trackAfter : Bool) : List MountCmd × Except MountErr MountState :=
  if m.parked then ([], .error .parkedErr)
  else if alt < (m.altLimit : ℚ) then ([], .error .altBelowLimit)
  else if ¬ (m.azLower ≤ az ∧ az ≤ m.azUpper) then ([], .error .azOutsideRange)
  else if ¬ (-90 ≤ alt ∧ alt ≤ 90) then ([], .error .altFormatRange)
  else if ¬ acks.ackSa then ([.setAltTarget alt], .error .cmdRefused)
  else if ¬ acks.ackSz then
    ([.setAltTarget alt, .setAzTarget (pyMod360 az)], .error .cmdRefused)
  else if ¬ acks.ackMSS then
    ([.setAltTarget alt, .setAzTarget (pyMod360 az), .slew], .error .cmdRefused)
  else
    ([.setAltTarget alt, .setAzTarget (pyMod360 az), .slew]
        ++ (if trackAfter then [.trackOn] else [.trackOff]),
     .ok { m with alt := alt, az := pyMod360 az, tracking := trackAfter })

/-! ### Claim C6 -/

/-- Claim C6: every `goto_altaz` request that finds the mount parked, or the
altitude below the device's limit, or the azimuth outside the configured
interval, fails with the corresponding safety error before any target-setting
or motion command reaches the mount (empty command trace, mount state
untouched); when no safety check fires (and the target formats and the mount
acknowledgments are fine) the slew command is issued. -/
theorem C6_goto_altaz_safety (m : MountState) (acks : MountAcks)
    (alt az : ℚ) (trackAfter : Bool) :
    (m.parked = true →
      gotoAltAz m acks alt az trackAfter = ([], .error .parkedErr))
    ∧ (m.parked = false → alt < (m.altLimit : ℚ) →
      gotoAltAz m acks alt az trackAfter = ([], .error .altBelowLimit))
    ∧ (m.parked = false → ¬ alt < (m.altLimit : ℚ) →
      ¬ (m.azLower ≤ az ∧ az ≤ m.azUpper) →
      gotoAltAz m acks alt az trackAfter = ([], .error .azOutsideRange))
    ∧ (m.parked = false → ¬ alt < (m.altLimit : ℚ) →
      m.azLower ≤ az → az ≤ m.azUpper → -90 ≤ alt → alt ≤ 90 →
      acks.ackSa = true → acks.ackSz = true → acks.ackMSS = true →
      MountCmd.slew ∈ (gotoAltAz m acks alt az trackAfter).1
        ∧ (gotoAltAz m acks alt az trackAfter).2
            = .ok { m with alt := alt, az := pyMod360 az,
                           tracking := trackAfter }) := by
  refine ⟨fun hp => ?_, fun hp hl => ?_, fun hp hl haz => ?_,
    fun hp hl h1 h2 h3 h4 hA hB hC => ?_⟩
  · simp [gotoAltAz, hp]
  · simp [gotoAltAz, hp, hl]
  · simp only [gotoAltAz, hp, Bool.false_eq_true, if_false, hl, haz, not_false_eq_true,
      if_true, if_neg hl, if_pos haz]
  · have haz : (m.azLower ≤ az ∧ az ≤ m.azUpper) := ⟨h1, h2⟩
    have hfmt : (-90 ≤ alt ∧ alt ≤ 90) := ⟨h3, h4⟩
    simp [gotoAltAz, hp, hl, haz, hfmt, hA, hB, hC]

/-- Witness for C6_goto_altaz_safety, at the spec's scenario: limits
`alt_limit = 15`, `az ∈ [60, 300]`, unparked mount at home: `goto_altaz(10, 180)`
fails on altitude and `goto_altaz(20, 30)` on azimuth, both with nothing sent;
`goto_altaz(45, 180)` issues the slew. -/
theorem C6_goto_altaz_safety_witness :
    (gotoAltAz ⟨false, 15, 60, 300, 90, 0, false⟩ ⟨true, true, true⟩ 10 180 false
        = ([], .error .altBelowLimit))
    ∧ (gotoAltAz ⟨false, 15, 60, 300, 90, 0, false⟩ ⟨true, true, true⟩ 20 30 false
        = ([], .error .azOutsideRange))
    ∧ MountCmd.slew ∈
        (gotoAltAz ⟨false, 15, 60, 300, 90, 0, false⟩ ⟨true, true, true⟩ 45 180 false).1 := by
  refine ⟨?_, ?_, ?_⟩
  · exact (C6_goto_altaz_safety ⟨false, 15, 60, 300, 90, 0, false⟩
      ⟨true, true, true⟩ 10 180 false).2.1 rfl (by norm_num)
  · exact (C6_goto_altaz_safety ⟨false, 15, 60, 300, 90, 0, false⟩
      ⟨true, true, true⟩ 20 30 false).2.2.1 rfl (by norm_num) (by norm_num)
  · exact ((C6_goto_altaz_safety ⟨false, 15, 60, 300, 90, 0, false⟩
      ⟨true, true, true⟩ 45 180 false).2.2.2 rfl (by norm_num) (by norm_num)
      (by norm_num) (by norm_num) (by norm_num) rfl rfl rfl).1

/-! ## Shutdown path (src/pandora/pandora_controller.py `close_all_connections`,
src/pandora/states/shutter_state.py, src/pandora/controller/keysight.py)

`close_all_connections` closes, in order: the monochromator (serial port),
the shutter (whose `close` activates it — activation is the closed blade
position: `PandoraBox.close_shutter` calls `shutter.activate()`), every flip
mount (`close` deactivates), the Keysight electrometers, the spectrograph
when present, and the LabJack.  The Zaber stages carry a TODO and are never
closed.  `KeysightController.close` only closes the VISA session: it sends
no SCPI command (in particular not `:INP OFF`). -/

inductive SysEv
  | monoSerialClose
  | shutterDriveLow
  | shutterDriveHigh
  | flipDriveLow (i : ℕ)
  | flipDriveHigh (i : ℕ)
  | keysightSessionClose (k : ℕ)
  | scpiWrite (k : ℕ) (cmd : String)
  | zaberConnClose
  | labjackConnClose
deriving Repr, DecidableEq

/-- The `valid_transitions` table of `ShutterState.set_state` (it differs
from the flip-mount table in the ON and OFF rows). -/
def validTransitionSh (s t : FMState) : Bool :=
  match s with
  | .uninit => t == .idle
  | .idle => t == .on || t == .off || t == .fault || t == .uninit || t == .idle
  | .on => t == .off || t == .fault || t == .on || t == .idle || t == .uninit
  | .off => t == .on || t == .fault || t == .off
  | .fault => t == .idle

/-- `ShutterState.set_state`. -/
def setStateSh (s t : FMState) : FMState := if validTransitionSh s t then t else s

/-- `ShutterState.get_state` (reads `FIO_STATE & 1`; 0 maps to ON). -/
def getStateSh (read : Option ℤ) (s : FMState) : FMState :=
  match s with
  | .uninit => .uninit
  | s =>
    match read with
    | none => setStateSh s .fault
    | some v => setStateSh s (if v = 0 then .on else .off)

/-- The state dispatch of `ShutterState.activate` for a non-IDLE state:
activation (closed blades) drives the line low from OFF. -/
def activateShStep : FMState → FMState × List SysEv
  | .off => (setStateSh .off .on, [.shutterDriveLow])
  | .on => (.on, [])
  | .fault => (.fault, [])
  | s => (s, [])

/-- `ShutterState.activate` (IDLE re-reads then dispatches, as for flip
mounts). -/
def activateSh (read : Option ℤ) (s : FMState) : FMState × List SysEv :=
  match s with
  | .idle => activateShStep (getStateSh read .idle)
  | s => activateShStep s

/-- `ShutterState.close`: `activate()` (drive to the closed position),
`set_state(UNINITIALIZED)`, `get_state` (no read when UNINITIALIZED). -/
def shutterClose (read : Option ℤ) (s : FMState) : FMState × List SysEv :=
  let p := activateSh read s
  (getStateSh read (setStateSh p.1 .uninit), p.2)

/-- `KeysightController.close`: closes the VISA session when connected and
otherwise only logs; no SCPI traffic either way. -/
def keysightClose (k : ℕ) (connected : Bool) : List SysEv :=
  if connected then [.keysightSessionClose k] else []

/-- `KeysightController.off` (shown for contrast: `close` never invokes it). -/
def keysightOff (k : ℕ) : List SysEv := [.scpiWrite k ":INP OFF"]

/-- `MonochromatorController.close`: closes the serial port when open. -/
def monoClose (connected : Bool) : List SysEv :=
  if connected then [.monoSerialClose] else []

/-- Renaming a flip-mount line drive into the system-wide event alphabet. -/
def flipCmdToSysEv (i : ℕ) : LineCmd → SysEv
  | .sendLow => .flipDriveLow i
  | .sendHigh => .flipDriveHigh i

structure PandoraSys where
  monoConnected : Bool
  shutter : FMState
  flips : List FMState
  k1Connected : Bool
  k2Connected : Bool
  zaberPresent : Bool
deriving Repr, DecidableEq

/-- `PandoraBox.close_all_connections`: monochromator, shutter, flip mounts,
Keysights (attribute order k1 then k2), no Zaber close (TODO in the source),
no spectrograph configured, LabJack last. -/
def closeAllConnections (read : Option ℤ) (sys : PandoraSys) :
    PandoraSys × List SysEv :=
  let evMono := monoClose sys.monoConnected
  let pSh := shutterClose read sys.shutter
  let evFlips := (sys.flips.enum.map
    (fun p => ((flipMountClose read p.2).2.map (flipCmdToSysEv p.1)))).flatten
  let evK := keysightClose 1 sys.k1Connected ++ keysightClose 2 sys.k2Connected
  let sys' : PandoraSys :=
    { monoConnected := false
      shutter := pSh.1
      flips := sys.flips.map (fun s => (flipMountClose read s).1)
      k1Connected := false
      k2Connected := false
      zaberPresent := sys.zaberPresent }
  (sys', evMono ++ pSh.2 ++ evFlips ++ evK ++ [.labjackConnClose])

lemma shutterClose_trace_cases (read : Option ℤ) (s : FMState) :
    (shutterClose read s).2 = [] ∨ (shutterClose read s).2 = [SysEv.shutterDriveLow] := by
  cases s
  · left; rfl
  · cases read with
    | none => left; rfl
    | some v =>
      by_cases hv : v = 0
      · subst hv; left; rfl
      · right
        have hg : getStateSh (some v) FMState.idle = FMState.off := by
          simp only [getStateSh]
          rw [if_neg hv]
          decide
        show (activateShStep (getStateSh (some v) FMState.idle)).2 = _
        rw [hg]
        rfl
  · left; rfl
  · right; rfl
  · left; rfl

lemma shutterClose_trace (read : Option ℤ) (s : FMState) :
    ∀ e ∈ (shutterClose read s).2, e = SysEv.shutterDriveLow := by
  rcases shutterClose_trace_cases read s with h | h <;> rw [h] <;>
    intro e he <;> simp_all

lemma flipMountClose_trace_cases (read : Option ℤ) (s : FMState) :
    (flipMountClose read s).2 = [] ∨ (flipMountClose read s).2 = [LineCmd.sendHigh] := by
  cases s
  · left; rfl
  · cases read with
    | none => left; rfl
    | some v =>
      by_cases hv : v = 0
      · subst hv; right; rfl
      · left
        have hg : getStateFM (some v) FMState.idle = FMState.off := by
          simp only [getStateFM]
          rw [if_neg hv]
          decide
        show (deactivateStep (getStateFM (some v) FMState.idle)).2 = _
        rw [hg]
        rfl
  · right; rfl
  · left; rfl
  · left; rfl

lemma flipMountClose_trace (read : Option ℤ) (s : FMState) :
    ∀ c ∈ (flipMountClose read s).2, c = LineCmd.sendHigh := by
  rcases flipMountClose_trace_cases read s with h | h <;> rw [h] <;>
    intro c hc <;> simp_all

/-! ### Claim C9 -/

/-- Claim C9, counterexample: on a fully connected system with the shutter
open and every flip mount engaged, `close_all_connections` does close both
electrometer sessions, but no SCPI write — in particular no `:INP OFF`, the
body of `off()` — ever appears in the shutdown trace: the electrometer input
is not turned off before the connection is released.  The Zaber stage is
never closed either. -/
theorem C9_counterexample :
    SysEv.keysightSessionClose 1 ∈
        (closeAllConnections (some 1)
          ⟨true, .off, [.on, .on, .on, .on], true, true, true⟩).2
    ∧ SysEv.keysightSessionClose 2 ∈
        (closeAllConnections (some 1)
          ⟨true, .off, [.on, .on, .on, .on], true, true, true⟩).2
    ∧ SysEv.scpiWrite 1 ":INP OFF" ∉
        (closeAllConnections (some 1)
          ⟨true, .off, [.on, .on, .on, .on], true, true, true⟩).2
    ∧ SysEv.zaberConnClose ∉
        (closeAllConnections (some 1)
          ⟨true, .off, [.on, .on, .on, .on], true, true, true⟩).2 := by
  decide

/-- Claim C9, amended: `close_all_connections` closes the monochromator
serial port, commands the shutter closed (a low drive when it was open, no
drive when already closed), deactivates the flip mounts, closes both
electrometer VISA sessions, and closes the LabJack — but each electrometer's
`close()` releases the session without turning the input off (no SCPI write
occurs anywhere in the shutdown), and the Zaber stage is never closed. -/
theorem C9_shutdown (sys : PandoraSys) (v : ℤ) :
    (∀ k c, SysEv.scpiWrite k c ∉ (closeAllConnections (some v) sys).2)
    ∧ SysEv.zaberConnClose ∉ (closeAllConnections (some v) sys).2
    ∧ (sys.monoConnected = true →
        SysEv.monoSerialClose ∈ (closeAllConnections (some v) sys).2)
    ∧ (sys.k1Connected = true →
        SysEv.keysightSessionClose 1 ∈ (closeAllConnections (some v) sys).2)
    ∧ (sys.k2Connected = true →
        SysEv.keysightSessionClose 2 ∈ (closeAllConnections (some v) sys).2)
    ∧ (sys.shutter = .off →
        SysEv.shutterDriveLow ∈ (closeAllConnections (some v) sys).2)
    ∧ (sys.shutter = .on → (shutterClose (some v) sys.shutter).2 = [])
    ∧ SysEv.labjackConnClose ∈ (closeAllConnections (some v) sys).2 := by
  have hnotin : ∀ e, (∀ i, e ≠ SysEv.flipDriveLow i ∧ e ≠ SysEv.flipDriveHigh i) →
      e ≠ SysEv.shutterDriveLow →
      e ≠ SysEv.monoSerialClose →
      (∀ k, e ≠ SysEv.keysightSessionClose k) →
      e ≠ SysEv.labjackConnClose →
      e ∉ (closeAllConnections (some v) sys).2 := by
    intro e hflip hsh hmono hk hlj hmem
    simp only [closeAllConnections, List.mem_append, List.mem_flatten,
      List.mem_singleton, List.mem_map] at hmem
    rcases hmem with ((((hm | hs) | hf) | hks) | hl)
    · cases hcon : sys.monoConnected <;> simp [monoClose, hcon] at hm
      exact hmono hm
    · exact hsh (shutterClose_trace _ _ e hs)
    · obtain ⟨l, ⟨p, _, hpl⟩, hel⟩ := hf
      subst hpl
      obtain ⟨c, hc, hce⟩ := List.mem_map.mp hel
      have := flipMountClose_trace (some v) p.2 c hc
      subst this
      exact (hflip p.1).2 hce.symm
    · rcases hks with h | h
      · cases hcon : sys.k1Connected <;> simp [keysightClose, hcon] at h
        exact hk 1 h
      · cases hcon : sys.k2Connected <;> simp [keysightClose, hcon] at h
        exact hk 2 h
    · exact hlj hl
  refine ⟨?_, ?_, ?_, ?_, ?_, ?_, ?_, ?_⟩
  · intro k c
    exact hnotin _ (fun i => by simp) (by simp) (by simp) (fun k' => by simp)
      (by simp)
  · exact hnotin _ (fun i => by simp) (by simp) (by simp) (fun k' => by simp)
      (by simp)
  · intro h
    simp [closeAllConnections, monoClose, h]
  · intro h
    simp [closeAllConnections, keysightClose, h]
  · intro h
    simp [closeAllConnections, keysightClose, h]
  · intro h
    simp [closeAllConnections, h, shutterClose, activateSh, activateShStep]
  · intro h
    simp [h, shutterClose, activateSh, activateShStep]
  · simp [closeAllConnections]

/-- Witness for C9_shutdown at the concrete fully connected system. -/
theorem C9_shutdown_witness :
    SysEv.monoSerialClose ∈
        (closeAllConnections (some 1)
          ⟨true, .on, [.off, .off, .off, .off], true, true, true⟩).2
    ∧ SysEv.shutterDriveLow ∉
        (closeAllConnections (some 1)
          ⟨true, .on, [.off, .off, .off, .off], true, true, true⟩).2 := by
  constructor
  · exact (C9_shutdown ⟨true, .on, [.off, .off, .off, .off], true, true, true⟩
      1).2.2.1 rfl
  · decide

/-! ## Exposure sequencer (src/pandora/pandora_controller.py `take_exposure`)

`take_exposure(exptime, observation_type, is_dark, warning)` turns both
electrometers on, programs the acquisition time, sets the shutter (closed
for a dark), arms both, sleeps, closes the shutter, reads both, and then:
for each electrometer whose reading's mean magnitude exceeds 1e36 (and only
when `warning` is false) it autoranges that electrometer
(`set_photodiode_scale(keysight_id=k)`, which opens the shutter, runs
`auto_scale`, closes the shutter) and recurses once with `warning=True` —
and then FALLS THROUGH to `_save_exposure` with the ORIGINAL overflow data:
unlike `take_charge_exposure`, there is no `return` after the retry.

The embedding gives the two reachable instantiations of the `warning` flag
as two definitions: `takeExposureOnce` is the `warning=True` call (the
overflow branches are disabled by `not warning`), and `takeExposure` the
`warning=False` entry point.  Device readings are an input stream of sample
arrays, one pair per exposure attempt, consumed in order; `auto_scale`'s
internal short acquisitions are abstracted into the single autoscale event
the claim counts. -/

inductive ExpEv
  | inputOn (k : ℕ)
  | setAcqTime (k : ℕ) (t : ℚ)
  | shutterOpen
  | shutterClose
  | arm (k : ℕ)
  | autoscale (k : ℕ)
  | saveRow (cin cout : ℚ)
deriving Repr, DecidableEq

/-- `np.mean` of a sample array. -/
def qmean (l : List ℚ) : ℚ := l.sum / (l.length : ℚ)

/-- The overflow sentinel `1e36` (written as a plain numeral so concrete
traces evaluate inside the kernel). -/
def overflowThreshold : ℚ := 1000000000000000000000000000000000000

/-- The fixed prelude and shutter choreography of one exposure attempt:
inputs on, acquisition times, shutter set (closed for a dark), both arms,
sleep, shutter closed. -/
def exposureShell (exptime : ℚ) (isDark : Bool) : List ExpEv :=
  [.inputOn 1, .inputOn 2, .setAcqTime 1 exptime, .setAcqTime 2 exptime,
   (if isDark then ExpEv.shutterClose else ExpEv.shutterOpen),
   .arm 1, .arm 2, .shutterClose]

/-- `set_photodiode_scale(keysight_id=k)` with neither `scale` nor
`scale_down`: open shutter, one `auto_scale` of that electrometer, close
shutter. -/
def setPhotodiodeScaleEv (k : ℕ) : List ExpEv :=
  [.shutterOpen, .autoscale k, .shutterClose]

/-- `take_exposure(..., warning=True)`: the overflow checks carry
`and (not warning)`, so no autorange or further retry can fire; the read
means are saved. -/
def takeExposureOnce (exptime : ℚ) (isDark : Bool)
    (stream : List (List ℚ × List ℚ)) : List ExpEv × List (List ℚ × List ℚ) :=
  match stream with
  | [] => ([], [])
  | (s1, s2) :: rest =>
    (exposureShell exptime isDark ++ [.saveRow |qmean s1| |qmean s2|], rest)

/-- `take_exposure(..., warning=False)`: on a first overflow of electrometer
k the sequencer autoranges k and recurses once with `warning=True`; control
then falls through (no `return`) and `_save_exposure` persists the original
read — after the retry's own row. -/
def takeExposure (exptime : ℚ) (isDark : Bool)
    (stream : List (List ℚ × List ℚ)) : List ExpEv × List (List ℚ × List ℚ) :=
  match stream with
  | [] => ([], [])
  | (s1, s2) :: rest =>
    let m1 := qmean s1
    let m2 := qmean s2
    let p1 := if overflowThreshold < |m1| then
        (setPhotodiodeScaleEv 1 ++ (takeExposureOnce exptime isDark rest).1,
         (takeExposureOnce exptime isDark rest).2)
      else ([], rest)
    let p2 := if overflowThreshold < |m2| then
        (setPhotodiodeScaleEv 2 ++ (takeExposureOnce exptime isDark p1.2).1,
         (takeExposureOnce exptime isDark p1.2).2)
      else ([], p1.2)
    (exposureShell exptime isDark ++ p1.1 ++ p2.1 ++ [.saveRow |m1| |m2|], p2.2)

/-- The rows `write_exposure` commits (currentInput, currentOutput), in
commit order. -/
def savedRows (evs : List ExpEv) : List (ℚ × ℚ) :=
  evs.filterMap (fun e => match e with
    | .saveRow a b => some (a, b)
    | _ => none)

/-- How many autoranges of electrometer k the trace holds. -/
def autorangeCount (evs : List ExpEv) (k : ℕ) : ℕ :=
  evs.countP (fun e => e == ExpEv.autoscale k)

/-- How many exposure attempts (arms of electrometer 1) the trace holds. -/
def armCount (evs : List ExpEv) : ℕ :=
  evs.countP (fun e => e == ExpEv.arm 1)

/-! ### Claim C1 -/

/-- Claim C1: on a light exposure whose first K1 reading has mean 1e40
(overflow) while K2 reads 1e-6, and whose retried reading (2e-6, 1e-6) does
not overflow, the sequencer performs exactly one autorange of K1 and exactly
one retried exposure (two attempts in total) — but the run database receives
TWO rows: the retried row followed by a row holding the overflow mean 1e40,
because `take_exposure` lacks a `return` after the retry (its sibling
`take_charge_exposure` has one).  The last persisted row for the sample is
the overflow row, contradicting the claim that the persisted measurement is
the retried mean. -/
theorem C1_overflow_retry_also_persists_overflow_row :
    savedRows (takeExposure 1 false
        [([10000000000000000000000000000000000000000], [1/1000000]),
         ([2/1000000], [1/1000000])]).1
      = [(2/1000000, 1/1000000), (10000000000000000000000000000000000000000, 1/1000000)]
    ∧ autorangeCount (takeExposure 1 false
        [([10000000000000000000000000000000000000000], [1/1000000]),
         ([2/1000000], [1/1000000])]).1 1 = 1
    ∧ autorangeCount (takeExposure 1 false
        [([10000000000000000000000000000000000000000], [1/1000000]),
         ([2/1000000], [1/1000000])]).1 2 = 0
    ∧ armCount (takeExposure 1 false
        [([10000000000000000000000000000000000000000], [1/1000000]),
         ([2/1000000], [1/1000000])]).1 = 2
    ∧ (savedRows (takeExposure 1 false
        [([10000000000000000000000000000000000000000], [1/1000000]),
         ([2/1000000], [1/1000000])]).1).getLast?
      = some (10000000000000000000000000000000000000000, 1/1000000)
    ∧ overflowThreshold < 10000000000000000000000000000000000000000 := by
  have hqB : qmean [(10000000000000000000000000000000000000000 : ℚ)]
      = 10000000000000000000000000000000000000000 := by simp [qmean]
  have hqu : qmean [(1/1000000 : ℚ)] = 1/1000000 := by simp [qmean]
  have hqw : qmean [(2/1000000 : ℚ)] = 2/1000000 := by simp [qmean]
  have haB : |(10000000000000000000000000000000000000000 : ℚ)|
      = 10000000000000000000000000000000000000000 := abs_of_nonneg (by norm_num)
  have hau : |(1/1000000 : ℚ)| = 1/1000000 := abs_of_nonneg (by norm_num)
  have haw : |(2/1000000 : ℚ)| = 2/1000000 := abs_of_nonneg (by norm_num)
  have hov : overflowThreshold
      < |qmean [(10000000000000000000000000000000000000000 : ℚ)]| := by
    rw [hqB, haB]; norm_num [overflowThreshold]
  have hnovU : ¬ overflowThreshold < |qmean [(1/1000000 : ℚ)]| := by
    rw [hqu, hau]; norm_num [overflowThreshold]
  have hov2 : overflowThreshold
      < (10000000000000000000000000000000000000000 : ℚ) := by
    norm_num [overflowThreshold]
  have hnov2 : ¬ overflowThreshold < (1/1000000 : ℚ) := by
    norm_num [overflowThreshold]
  have hrun : (takeExposure 1 false
      [([10000000000000000000000000000000000000000], [1/1000000]),
       ([2/1000000], [1/1000000])]).1
      = [.inputOn 1, .inputOn 2, .setAcqTime 1 1, .setAcqTime 2 1, .shutterOpen,
         .arm 1, .arm 2, .shutterClose,
         .shutterOpen, .autoscale 1, .shutterClose,
         .inputOn 1, .inputOn 2, .setAcqTime 1 1, .setAcqTime 2 1, .shutterOpen,
         .arm 1, .arm 2, .shutterClose,
         .saveRow (2/1000000) (1/1000000),
         .saveRow 10000000000000000000000000000000000000000 (1/1000000)] := by
    have hqu' : qmean [(1000000⁻¹ : ℚ)] = 1000000⁻¹ := by simp [qmean]
    have hau' : |(1000000⁻¹ : ℚ)| = 1000000⁻¹ := abs_of_nonneg (by norm_num)
    simp only [takeExposure, takeExposureOnce, hov, hnovU, ite_true, ite_false]
    simp [exposureShell, setPhotodiodeScaleEv, hqB, hqu, hqw, haB, hau, haw,
      hqu', hau']
  refine ⟨?_, ?_, ?_, ?_, ?_, by norm_num [overflowThreshold]⟩ <;>
    rw [hrun] <;>
    simp [savedRows, autorangeCount, armCount]

/-! ## Zaber stage slots (src/pandora/controller/zaberstages.py)

`move_to_slot(mask_slot_name)` guards on membership in `slot_map` — but the
guard's error-log f-string interpolates `self.mask_positions`, an attribute
that does not exist on `ZaberController` (the field is `slot_map`), so for an
unknown slot name the call raises AttributeError instead of logging and
returning.  Either way no motion command is issued and the cached slot is
unchanged.  For a known name the axis is moved absolutely to the mapped
position and the cached slot becomes the name. -/

structure ZaberSt where
  slotMap : List (String × ℚ)
  position : String
  axisPos : ℚ
deriving Repr, DecidableEq

inductive ZEv
  | moveAbsolute (mm : ℚ)
deriving Repr, DecidableEq

/-- The module-level `MASK_MAP` slot table (mm offsets, written as exact
rationals of the source's decimal literals). -/
def MASK_MAP : List (String × ℚ) :=
  [("ND05", 7),
   ("ND10", 7 + 3937/100),
   ("ND15", 7 + 3937/100 + 332/10),
   ("ND20", 7 + 3937/100 + 332/10 + 34),
   ("CLEAR", 7 + 3937/100 + 332/10 + 34 + 352/10)]

/-- `ZaberController.move_to_slot`. -/
def moveToSlot (st : ZaberSt) (name : String) : List ZEv × Except String ZaberSt :=
  if (st.slotMap.lookup name).isNone then
    ([], .error "AttributeError: ZaberController object has no attribute mask_positions")
  else
    let target := (st.slotMap.lookup name).getD 0
    ([.moveAbsolute target], .ok { st with position := name, axisPos := target })

/-! ### Claim C10 -/

/-- Claim C10: for a name absent from the slot map, `move_to_slot` issues no
motion command and leaves the cached slot and the stage untouched — but it
raises AttributeError (its own error-log line reads the nonexistent
attribute `mask_positions`) instead of returning; for a mapped name the
motion is commanded and the cached slot updated. -/
theorem C10_move_to_slot_unknown_name :
    moveToSlot ⟨MASK_MAP, "UNKNOWN", 0⟩ "ND99"
      = ([], .error "AttributeError: ZaberController object has no attribute mask_positions")
    ∧ moveToSlot ⟨MASK_MAP, "UNKNOWN", 0⟩ "ND05"
      = ([.moveAbsolute 7], .ok ⟨MASK_MAP, "ND05", 7⟩) := by
  constructor <;> rfl

end Pandora
